import Mathlib

/-!
Verification of the bicep deployment script (deployScript package).

We shallowly embed the Python code of `deployScript/bicep_manager.py`,
`deployScript/config.py` and `deployScript/deployment.py` as Lean
functions and prove the specified properties about them.

Conventions of the embedding:
* A persisted per-file settings entry (a JSON object in the
  `FileOrder` list of `.deployment-settings.json`) is modelled as a
  structure of `Option` fields; a key that is absent from the dict and a
  key that is present with value `None` are conflated to `none` (the
  code only reads entries through `dict.get`, and the keys it tests with
  `in` are only ever stored with non-`None` values).
* Python truthiness of a string (used by `if error_message:` and
  `if current_hash and last_hash:`) is `strTruthy`: `none` and the
  empty string are falsy.
* Environment interaction (file hashing, mtimes, the external Azure
  CLI, operator answers at prompts) is passed in as explicit data.
-/

namespace BicepDeploy

/-- Python truthiness of an optional string: `None` and `""` are falsy. -/
def strTruthy : Option String → Bool
  | none => false
  | some s => !(s == "")

/-- Python truthiness of an optional bool: `None` and `False` are falsy. -/
def boolTruthy : Option Bool → Bool
  | none => false
  | some b => b

/-- A persisted file-order entry of `.deployment-settings.json`.
Fields mirror the JSON keys used by `bicep_manager.py`; `none` stands
for an absent key (or a key stored as `None`). -/
structure FileEntry where
  fileName : Option String := none
  enabled : Option Bool := none
  lastDeploymentSuccess : Option Bool := none
  lastDeploymentError : Option String := none
  lastDeployment : Option String := none
  lastFileHash : Option String := none
  lastValidationSuccess : Option Bool := none
  lastValidationError : Option String := none
  lastValidation : Option String := none
  deriving Repr, DecidableEq

/-- Python truthiness of the entry dict: an empty dict is falsy.  With
absent-vs-`None` conflated, the dict is empty iff every field is
`none`. -/
def FileEntry.isEmptyDict (e : FileEntry) : Bool :=
  e.fileName = none && e.enabled = none &&
  e.lastDeploymentSuccess = none && e.lastDeploymentError = none &&
  e.lastDeployment = none && e.lastFileHash = none &&
  e.lastValidationSuccess = none && e.lastValidationError = none &&
  e.lastValidation = none

/-- Outcome of the timestamp-fallback branch of
`_determine_deployment_status` (lines 70-87 of `bicep_manager.py`) once
a `LastDeployment` string is present: the code parses it, compares the
on-disk mtime against it and returns the comparison, or returns `true`
when parsing fails.  We abstract that environment-dependent outcome as
a boolean `tsResult` supplied by the caller. -/
def timestampFallback (lastDeployment : Option String) (tsResult : Bool) : Bool :=
  match lastDeployment with
  | some _ => tsResult
  | none => true

/-- Embedding of `BicepManager._determine_deployment_status`
(`bicep_manager.py` lines 43-87).  `currentHash` is the result of
`_get_current_file_hash` (already `none` on I/O failure); `tsResult`
abstracts the parse-and-compare outcome of the timestamp fallback.
Returns `(needs_redeployment, current_hash)`. -/
def determine_deployment_status (currentHash : Option String)
    (fileSettings : Option FileEntry) (tsResult : Bool) :
    Bool × Option String :=
  match fileSettings with
  | none => (true, currentHash)
  | some fs =>
    if fs.isEmptyDict then (true, currentHash)
    else
      match fs.lastDeploymentSuccess with
      | some false => (true, currentHash)
      | none => (false, currentHash)
      | some true =>
        if strTruthy currentHash && strTruthy fs.lastFileHash then
          match currentHash, fs.lastFileHash with
          | some ch, some lh => (decide (ch ≠ lh), currentHash)
          | _, _ => (true, currentHash)
        else
          (timestampFallback fs.lastDeployment tsResult, currentHash)

/-- C1: with a prior successful deployment and both hashes present
(sha256 hex digests, hence non-empty), the result is exactly "hashes
differ", for every value of the timestamp comparison. -/
theorem determine_status_hash_priority
    (fs : FileEntry) (ch lh : String)
    (hsucc : fs.lastDeploymentSuccess = some true)
    (hlh : fs.lastFileHash = some lh)
    (hch : ch ≠ "") (hlh2 : lh ≠ "") (tsResult : Bool) :
    determine_deployment_status (some ch) (some fs) tsResult
      = (decide (ch ≠ lh), some ch) := by
  have hne : ¬ fs.isEmptyDict := by
    simp [FileEntry.isEmptyDict, hsucc]
  simp only [determine_deployment_status, hne, if_false, Bool.false_eq_true,
    hsucc, hlh, strTruthy]
  have hch2 : (ch == "") = false := by
    simpa [beq_iff_eq] using hch
  have hlh3 : (lh == "") = false := by
    simpa [beq_iff_eq] using hlh2
  simp [hch2, hlh3]

theorem determine_status_hash_priority_witness :
    ({ lastDeploymentSuccess := some true, lastFileHash := some "b" } :
      FileEntry).lastDeploymentSuccess = some true ∧
    determine_deployment_status (some "a")
      (some { lastDeploymentSuccess := some true, lastFileHash := some "b" })
      false = (true, some "a") :=
  ⟨rfl, by
    have h := determine_status_hash_priority
      { lastDeploymentSuccess := some true, lastFileHash := some "b" }
      "a" "b" rfl rfl (by decide) (by decide) false
    simpa using h⟩

/-- C2: an explicitly failed last deployment always needs
redeployment, whatever the hashes and the timestamp comparison say. -/
theorem determine_status_failed_always_redeploys
    (fs : FileEntry) (hfail : fs.lastDeploymentSuccess = some false)
    (currentHash : Option String) (tsResult : Bool) :
    (determine_deployment_status currentHash (some fs) tsResult).1 = true := by
  have hne : ¬ fs.isEmptyDict := by
    simp [FileEntry.isEmptyDict, hfail]
  simp [determine_deployment_status, hne, hfail]

theorem determine_status_failed_always_redeploys_witness :
    ({ lastDeploymentSuccess := some false } :
      FileEntry).lastDeploymentSuccess = some false ∧
    (determine_deployment_status (some "a")
      (some { lastDeploymentSuccess := some false }) false).1 = true :=
  ⟨rfl, determine_status_failed_always_redeploys
    { lastDeploymentSuccess := some false } rfl (some "a") false⟩

/-- C3: no persisted record yields `needs_redeployment = true`, while a
record that exists (it was matched by its `FileName`, so that field is
present) whose last-deployment outcome is unset yields
`needs_redeployment = false`; in the latter case neither the hashes nor
the timestamp comparison influence the result. -/
theorem determine_status_never_deployed_states
    (currentHash : Option String) (tsResult : Bool) :
    (determine_deployment_status currentHash none tsResult).1 = true ∧
    ∀ (fs : FileEntry) (n : String), fs.fileName = some n →
      fs.lastDeploymentSuccess = none →
      (determine_deployment_status currentHash (some fs) tsResult).1 = false := by
  refine ⟨rfl, ?_⟩
  intro fs n hname hunset
  have hne : ¬ fs.isEmptyDict := by
    simp [FileEntry.isEmptyDict, hname]
  simp [determine_deployment_status, hne, hunset]

theorem determine_status_never_deployed_states_witness :
    (determine_deployment_status (some "a") none false).1 = true ∧
    (determine_deployment_status (some "a")
      (some { fileName := some "f.bicep" }) false).1 = false :=
  ⟨(determine_status_never_deployed_states (some "a") false).1,
   (determine_status_never_deployed_states (some "a") false).2
     { fileName := some "f.bicep" } "f.bicep" rfl rfl⟩

/-- Name match used throughout `bicep_manager.py`:
`entry.get('FileName') in [template_file.name, template_file.stem]`. -/
def matchesName (name stem : String) (e : FileEntry) : Bool :=
  e.fileName == some name || e.fileName == some stem

/-- The `has_history` test of `bicep_manager.py`: any of the four
outcome/time keys is present on the entry. -/
def hasHistory (e : FileEntry) : Bool :=
  e.lastDeployment.isSome || e.lastValidation.isSome ||
  e.lastDeploymentSuccess.isSome || e.lastValidationSuccess.isSome

/-- Auxiliary loop for the entry search of `update_deployment_history`
(`bicep_manager.py` lines 186-204): scan for a matching entry, prefer
the first matching entry that has history (break), otherwise remember
the last matching simple entry. -/
def findEntryIdxAux (name stem : String) :
    List FileEntry → Option Nat → Nat → Option Nat
  | [], simple, _ => simple
  | e :: rest, simple, i =>
    if matchesName name stem e then
      if hasHistory e then some i
      else findEntryIdxAux name stem rest (some i) (i + 1)
    else findEntryIdxAux name stem rest simple (i + 1)

/-- Index of the entry that `update_deployment_history` (and its
validation twin) will mutate, or `none` when a fresh entry must be
appended. -/
def findEntryIdx (name stem : String) (entries : List FileEntry) : Option Nat :=
  findEntryIdxAux name stem entries none 0

/-- In-place update of the element at index `i` (Python mutates the
dict object stored in the list). -/
def updateAt (i : Nat) (f : FileEntry → FileEntry) :
    List FileEntry → List FileEntry
  | [] => []
  | e :: rest =>
    match i with
    | 0 => f e :: rest
    | j + 1 => e :: updateAt j f rest

/-- The field writes of `update_deployment_history`
(`bicep_manager.py` lines 211-220): set outcome, time and hash, then
store the error message when it is truthy and delete it otherwise. -/
def applyDeploymentUpdate (success : Bool) (now : String)
    (fileHash : Option String) (errorMessage : Option String)
    (e : FileEntry) : FileEntry :=
  let e2 := { e with lastDeploymentSuccess := some success,
                     lastDeployment := some now,
                     lastFileHash := fileHash }
  if strTruthy errorMessage then { e2 with lastDeploymentError := errorMessage }
  else { e2 with lastDeploymentError := none }

/-- Embedding of `BicepManager.update_deployment_history`
(`bicep_manager.py` lines 171-222).  `fileHash` is the freshly
computed content hash (`none` on I/O failure), `now` the formatted
current time.  The matched entry is updated in place; when none
matches, a fresh `{'FileName': name, 'Enabled': True}` entry is
appended and then updated. -/
def update_deployment_history (name stem : String) (fileHash : Option String)
    (now : String) (success : Bool) (errorMessage : Option String)
    (entries : List FileEntry) : List FileEntry :=
  match findEntryIdx name stem entries with
  | some i => updateAt i (applyDeploymentUpdate success now fileHash errorMessage) entries
  | none => entries ++
      [applyDeploymentUpdate success now fileHash errorMessage
        { fileName := some name, enabled := some true }]

/-- C5 counterexample: the claim says a stored error is cleared
whenever `success` is true, but `record_deployment(f, True, "x")` on a
record holding an old error stores `"x"` instead of clearing: the code
keys clearing solely on the absence of a new message. -/
theorem record_deployment_success_keeps_supplied_error :
    (update_deployment_history "f.bicep" "f" (some "h") "t1" true (some "x")
      [{ fileName := some "f.bicep", lastDeploymentSuccess := some false,
         lastDeploymentError := some "old" }]).map
      (fun e => e.lastDeploymentError) = [some "x"] := by rfl

/-- C5 amended: `record_deployment` clears a previously stored error
message exactly when the supplied message is absent or empty,
regardless of `success`; a non-empty supplied message is stored.  In
particular `record_deployment(f, True)`, then
`record_deployment(f, False, "boom")`, then
`record_deployment(f, True)` leaves the record with outcome
`False`/error `"boom"` after the second call and outcome `True`/no
error after the third. -/
theorem record_deployment_error_clearing :
    (∀ (success : Bool) (now : String) (fileHash em : Option String)
       (e : FileEntry),
       (applyDeploymentUpdate success now fileHash em e).lastDeploymentError
         = if strTruthy em then em else none) ∧
    (update_deployment_history "f.bicep" "f" (some "h2") "t2" false (some "boom")
        (update_deployment_history "f.bicep" "f" (some "h1") "t1" true none
          [{ fileName := some "f.bicep", enabled := some true }]) =
      [{ fileName := some "f.bicep", enabled := some true,
         lastDeploymentSuccess := some false,
         lastDeploymentError := some "boom",
         lastDeployment := some "t2", lastFileHash := some "h2" }]) ∧
    (update_deployment_history "f.bicep" "f" (some "h3") "t3" true none
        [{ fileName := some "f.bicep", enabled := some true,
           lastDeploymentSuccess := some false,
           lastDeploymentError := some "boom",
           lastDeployment := some "t2", lastFileHash := some "h2" }] =
      [{ fileName := some "f.bicep", enabled := some true,
         lastDeploymentSuccess := some true,
         lastDeploymentError := none,
         lastDeployment := some "t3", lastFileHash := some "h3" }]) := by
  refine ⟨?_, by rfl, by rfl⟩
  intro success now fileHash em e
  unfold applyDeploymentUpdate
  by_cases h : strTruthy em = true
  · simp [h]
  · simp [h]

/-- A fresh minimal entry: `{'FileName': name, 'Enabled': True}`. -/
def bareEntry (n : String) : FileEntry :=
  { fileName := some n, enabled := some true }

/-- Embedding of `BicepManager.refresh_file_list`
(`bicep_manager.py` lines 343-362).  `diskFiles` are the names of the
`*.bicep` files discovered on disk (the `templates` list); a bare
entry is appended for each name not already stored as an exact
`FileName`, and the function returns `len(templates)`, the total
number of discovered files. -/
def refresh_file_list (diskFiles : List String) (entries : List FileEntry) :
    List FileEntry × Nat :=
  let existing := entries.map (fun e => e.fileName)
  let newFiles := (diskFiles.filter
      (fun n => !(existing.contains (some n)))).map bareEntry
  (entries ++ newFiles, diskFiles.length)

/-- C6 counterexample: with one on-disk file whose exact name is
already persisted, nothing is added (the store is fully in sync) yet
the function returns 1, not 0 — it returns the total number of
discovered templates, not the number of newly added ones. -/
theorem refresh_file_list_returns_total_count :
    (refresh_file_list ["a.bicep"] [bareEntry "a.bicep"]).1
        = [bareEntry "a.bicep"] ∧
    (refresh_file_list ["a.bicep"] [bareEntry "a.bicep"]).2 = 1 := by
  exact ⟨rfl, rfl⟩

/-- C6 amended: `sync_new_files` adds a bare entry for each on-disk
file whose exact name is not yet stored, leaves every existing entry
unchanged and in place, and returns the total number of on-disk
template files discovered (not the number of newly added entries). -/
theorem refresh_file_list_spec (diskFiles : List String)
    (entries : List FileEntry) :
    (refresh_file_list diskFiles entries).1.take entries.length = entries ∧
    (∀ n, n ∈ diskFiles →
      (entries.map (fun e => e.fileName)).contains (some n) = false →
      bareEntry n ∈ (refresh_file_list diskFiles entries).1) ∧
    (∀ x, x ∈ (refresh_file_list diskFiles entries).1.drop entries.length →
      ∃ n, n ∈ diskFiles ∧
        (entries.map (fun e => e.fileName)).contains (some n) = false ∧
        x = bareEntry n) ∧
    (refresh_file_list diskFiles entries).2 = diskFiles.length := by
  refine ⟨?_, ?_, ?_, rfl⟩
  · simp [refresh_file_list, List.take_left]
  · intro n hn hnotin
    simp only [refresh_file_list, List.mem_append]
    right
    refine List.mem_map_of_mem bareEntry (List.mem_filter.2 ⟨hn, ?_⟩)
    rw [hnotin]
    rfl
  · intro x hx
    simp only [refresh_file_list, List.drop_left] at hx
    obtain ⟨n, hn, rfl⟩ := List.mem_map.1 hx
    obtain ⟨hmem, hpred⟩ := List.mem_filter.1 hn
    refine ⟨n, hmem, ?_, rfl⟩
    simpa using hpred

theorem refresh_file_list_spec_witness :
    ("b.bicep" ∈ ["b.bicep"] ∧
      (([] : List FileEntry).map (fun e => e.fileName)).contains
        (some "b.bicep") = false) ∧
    bareEntry "b.bicep" ∈ (refresh_file_list ["b.bicep"] []).1 :=
  ⟨⟨by decide, rfl⟩,
    (refresh_file_list_spec ["b.bicep"] []).2.1 "b.bicep" (by decide) rfl⟩

/-- Embedding of `BicepManager.reorder_templates`
(`bicep_manager.py` lines 314-341).  Entries named in `newOrder` are
looked up by exact `FileName` equality (first match; a miss creates a
fresh minimal entry), then every stored entry whose `FileName` is not
named in `newOrder` (including entries with no `FileName`) is appended
in its original relative order. -/
def reorder_templates (newOrder : List String) (entries : List FileEntry) :
    List FileEntry :=
  (newOrder.map (fun fn =>
    match entries.find? (fun e => e.fileName == some fn) with
    | some e => e
    | none => bareEntry fn)) ++
  entries.filter (fun e =>
    match e.fileName with
    | some n => !(newOrder.contains n)
    | none => true)

/-- C9: reorder matches by exact full name only.  If the store has a
record under the stem name and none under the full name, and the new
sequence names the full name, the reordered prefix carries a fresh
minimal record at the requested position while the stem-named record
(with all its history) is appended after all reordered entries. -/
theorem reorder_templates_stem_not_matched
    (pre post : List String) (entries : List FileEntry) (E : FileEntry)
    (stemName fullName : String)
    (hE : E ∈ entries) (hstem : E.fileName = some stemName)
    (hnofull : ∀ e, e ∈ entries → e.fileName ≠ some fullName)
    (hstemout : stemName ∉ pre ++ fullName :: post) :
    (reorder_templates (pre ++ fullName :: post) entries)[pre.length]?
        = some (bareEntry fullName) ∧
    E ∈ (reorder_templates (pre ++ fullName :: post) entries).drop
        (pre ++ fullName :: post).length := by
  constructor
  · have hlen : pre.length < ((pre ++ fullName :: post).map (fun fn =>
        match entries.find? (fun e => e.fileName == some fn) with
        | some e => e
        | none => bareEntry fn)).length := by
      simp
    have hmid : (pre ++ fullName :: post)[pre.length]? = some fullName := by
      rw [List.getElem?_append_right (Nat.le_refl _)]
      simp
    have hfind : entries.find? (fun e => e.fileName == some fullName) = none := by
      rw [List.find?_eq_none]
      intro x hx
      simpa using hnofull x hx
    rw [reorder_templates, List.getElem?_append_left hlen,
      List.getElem?_map, hmid]
    simp [hfind]
  · rw [reorder_templates]
    have hlen2 : ((pre ++ fullName :: post).map (fun fn =>
        match entries.find? (fun e => e.fileName == some fn) with
        | some e => e
        | none => bareEntry fn)).length = (pre ++ fullName :: post).length := by
      simp
    rw [List.drop_left' hlen2]
    refine List.mem_filter.2 ⟨hE, ?_⟩
    rw [hstem]
    simpa using hstemout

theorem reorder_templates_stem_not_matched_witness :
    ({ fileName := some "f", lastDeploymentSuccess := some true } : FileEntry)
        ∈ [{ fileName := some "f", lastDeploymentSuccess := some true }] ∧
    (reorder_templates ["f.bicep"]
        [{ fileName := some "f", lastDeploymentSuccess := some true }])[0]?
        = some (bareEntry "f.bicep") ∧
    ({ fileName := some "f", lastDeploymentSuccess := some true } : FileEntry)
        ∈ (reorder_templates ["f.bicep"]
        [{ fileName := some "f", lastDeploymentSuccess := some true }]).drop 1 := by
  have h := reorder_templates_stem_not_matched [] []
    [{ fileName := some "f", lastDeploymentSuccess := some true }]
    { fileName := some "f", lastDeploymentSuccess := some true }
    "f" "f.bicep" (by simp) rfl (by simp) (by simp)
  exact ⟨by simp, h.1, h.2⟩

/-- JSON documents, as produced by `json.load`. -/
inductive Json where
  | null
  | bool (b : Bool)
  | num (n : Int)
  | str (s : String)
  | arr (elems : List Json)
  | obj (fields : List (String × Json))

/-- First value stored under key `k` (JSON object keys are unique, so
this is `dict.get`). -/
def jsonLookup (fields : List (String × Json)) (k : String) : Option Json :=
  (fields.find? (fun p => p.1 == k)).map (fun p => p.2)

/-- The Python view of `data.get(k)`: an absent key and a key holding
JSON `null` both give `None`. -/
def pyGet (fields : List (String × Json)) (k : String) : Option Json :=
  match jsonLookup fields k with
  | none => none
  | some .null => none
  | some v => some v

/-- The `DeploymentSettings` dataclass of `config.py` (lines 11-22),
after `__post_init__` has replaced a `None` file order and
configuration with an empty list and dict. -/
structure DeploymentSettings where
  selectedParameterFile : Option Json := none
  lastUpdated : Option Json := none
  fileOrder : Json := .arr []
  configuration : Json := .obj []

/-- State of the backing `.deployment-settings.json` file:
absent, present but not valid JSON, or parsed to a document. -/
inductive SettingsFileState where
  | absent
  | unparsable
  | parsed (doc : Json)

/-- Embedding of `ConfigManager.load_deployment_settings`
(`config.py` lines 31-46).  An absent file returns the default; a
`json.JSONDecodeError` (or racing `FileNotFoundError`) is caught and
returns the default; but when the file parses to a non-object JSON
value, `data.get(...)` raises `AttributeError`, which is not in the
`except` clause and propagates. -/
def load_deployment_settings : SettingsFileState → Except String DeploymentSettings
  | .absent => .ok {}
  | .unparsable => .ok {}
  | .parsed (.obj kvs) => .ok
      { selectedParameterFile := pyGet kvs "SelectedParameterFile",
        lastUpdated := pyGet kvs "LastUpdated",
        fileOrder := (pyGet kvs "FileOrder").getD (.arr []),
        configuration := (pyGet kvs "Configuration").getD (.obj []) }
  | .parsed .null => .error "AttributeError"
  | .parsed (.bool _) => .error "AttributeError"
  | .parsed (.num _) => .error "AttributeError"
  | .parsed (.str _) => .error "AttributeError"
  | .parsed (.arr _) => .error "AttributeError"

/-- C7 counterexample: a backing file containing the valid JSON
document `[]` (a top-level array) makes `load` raise
`AttributeError` — the claim that `load()` never raises for any state
of the backing file is false. -/
theorem load_raises_on_array_document :
    load_deployment_settings (.parsed (.arr [])) = .error "AttributeError" := by
  rfl

/-- C7 amended: `load` returns the default empty Settings when the
backing file is absent or not valid JSON, and returns a Settings
value without raising whenever the file parses to a JSON object; only
a file parsing to a non-object JSON value makes it raise
(`AttributeError` from `data.get`, which the `except` clause does not
catch). -/
theorem load_deployment_settings_total_on_objects :
    load_deployment_settings .absent = .ok {} ∧
    load_deployment_settings .unparsable = .ok {} ∧
    (∀ kvs, ∃ s, load_deployment_settings (.parsed (.obj kvs)) = .ok s) ∧
    (∀ doc, (∀ kvs, doc ≠ .obj kvs) →
      load_deployment_settings (.parsed doc) = .error "AttributeError") := by
  refine ⟨rfl, rfl, fun kvs => ⟨_, rfl⟩, ?_⟩
  intro doc hdoc
  cases doc with
  | obj kvs => exact absurd rfl (hdoc kvs)
  | null => rfl
  | bool b => rfl
  | num n => rfl
  | str s => rfl
  | arr elems => rfl

theorem load_deployment_settings_total_on_objects_witness :
    ((∀ kvs, (Json.arr []) ≠ Json.obj kvs) ∧
      load_deployment_settings (.parsed (.arr [])) = .error "AttributeError") ∧
    load_deployment_settings .absent = .ok {} :=
  ⟨⟨fun _ h => Json.noConfusion h,
    (load_deployment_settings_total_on_objects).2.2.2 (.arr [])
      (fun _ h => Json.noConfusion h)⟩,
   (load_deployment_settings_total_on_objects).1⟩

/-- The three values `deploy_bicep_template` can return: Python
`True`, `False`, or the string `"skipped"`. -/
inductive DeployResult where
  | success
  | failure
  | skipped
  deriving Repr, DecidableEq

/-- Environment data consumed by one `deploy_bicep_template` call:
facts about the file and the answers of the external tool and the
operator.  `raised = some e` means some step of the `try` body raised
an unexpected exception rendered as `e`. -/
structure DeployEnv where
  templateName : String
  fileEmpty : Bool
  templateChanged : Bool
  confirmUnchangedAction : String
  validationOk : Bool
  validationMsg : String
  deployOk : Bool
  deployMsg : String
  raised : Option String

/-- Embedding of `DeploymentManager.deploy_bicep_template`
(`deployment.py` lines 100-191).  The second component collects the
`update_deployment_history` calls made, as `(success, error_message)`
pairs, in order. -/
def deploy_bicep_template (env : DeployEnv) (skipUnchanged : String)
    (skipValidation : Bool) (validationMode : String)
    (templateNeedsRedeployment : Bool) :
    DeployResult × List (Bool × Option String) :=
  match env.raised with
  | some e =>
      (.failure, [(false, some ("Unexpected error during deployment: " ++ e))])
  | none =>
    if env.fileEmpty then
      (.failure,
        [(false, some ("Cannot deploy empty template file: " ++ env.templateName))])
    else
      let action :=
        if skipUnchanged == "prompt" then env.confirmUnchangedAction
        else skipUnchanged
      if !env.templateChanged && action == "skip" then
        (.skipped, [])
      else
        let shouldValidate :=
          if skipValidation then false
          else if validationMode == "All" then true
          else if validationMode == "Changed" then templateNeedsRedeployment
          else false
        if shouldValidate && !env.validationOk then
          (.failure,
            [(false, some ("Template validation failed: " ++ env.validationMsg))])
        else if env.deployOk then
          (.success, [(true, none)])
        else
          (.failure, [(false, some ("Deployment failed: " ++ env.deployMsg))])

/-- A string starting with a non-empty prefix is non-empty. -/
theorem string_append_ne_empty (p t : String) (h : 0 < p.length) :
    p ++ t ≠ "" := by
  intro hc
  have hlen := congrArg String.length hc
  rw [String.length_append] at hlen
  have h0 : ("" : String).length = 0 := rfl
  omega

/-- C8: every call returns exactly one of success, failure or
"skipped"; every failure return is preceded by exactly one recorded
deployment-history entry with `success = False` and a non-empty error
message; a success records exactly one successful entry with no
message; a skip records nothing. -/
theorem deploy_bicep_template_records_every_failure
    (env : DeployEnv) (skipUnchanged : String) (skipValidation : Bool)
    (validationMode : String) (templateNeedsRedeployment : Bool) :
    ((deploy_bicep_template env skipUnchanged skipValidation validationMode
        templateNeedsRedeployment).1 = .success ∨
     (deploy_bicep_template env skipUnchanged skipValidation validationMode
        templateNeedsRedeployment).1 = .failure ∨
     (deploy_bicep_template env skipUnchanged skipValidation validationMode
        templateNeedsRedeployment).1 = .skipped) ∧
    ((deploy_bicep_template env skipUnchanged skipValidation validationMode
        templateNeedsRedeployment).1 = .failure →
      ∃ msg, (deploy_bicep_template env skipUnchanged skipValidation
          validationMode templateNeedsRedeployment).2 = [(false, some msg)] ∧
        msg ≠ "") ∧
    ((deploy_bicep_template env skipUnchanged skipValidation validationMode
        templateNeedsRedeployment).1 = .success →
      (deploy_bicep_template env skipUnchanged skipValidation validationMode
        templateNeedsRedeployment).2 = [(true, none)]) ∧
    ((deploy_bicep_template env skipUnchanged skipValidation validationMode
        templateNeedsRedeployment).1 = .skipped →
      (deploy_bicep_template env skipUnchanged skipValidation validationMode
        templateNeedsRedeployment).2 = []) := by
  obtain ⟨name, fe, tc, ca, vok, vmsg, dok, dmsg, raised⟩ := env
  cases raised with
  | some e =>
    refine ⟨Or.inr (Or.inl rfl), fun _ => ⟨_, rfl, ?_⟩, fun h => ?_, fun h => ?_⟩
    · exact string_append_ne_empty _ _ (by decide)
    · exact absurd h (by simp [deploy_bicep_template])
    · exact absurd h (by simp [deploy_bicep_template])
  | none =>
    simp only [deploy_bicep_template]
    split_ifs <;>
      refine ⟨?_, fun hfail => ?_, fun hsucc => ?_, fun hskip => ?_⟩ <;>
      first
        | (left; rfl)
        | (right; left; rfl)
        | (right; right; rfl)
        | rfl
        | exact ⟨_, rfl, string_append_ne_empty _ _ (by decide)⟩
        | simp_all

theorem deploy_bicep_template_records_every_failure_witness :
    (deploy_bicep_template
        ⟨"t.bicep", true, true, "deploy", true, "", true, "", none⟩
        "prompt" false "All" true).1 = DeployResult.failure ∧
    ∃ msg, (deploy_bicep_template
        ⟨"t.bicep", true, true, "deploy", true, "", true, "", none⟩
        "prompt" false "All" true).2 = [(false, some msg)] ∧ msg ≠ "" :=
  ⟨rfl, (deploy_bicep_template_records_every_failure
      ⟨"t.bicep", true, true, "deploy", true, "", true, "", none⟩
      "prompt" false "All" true).2.1 rfl⟩

/-- The three validation-outcome fields of an entry, bundled for
frame reasoning. -/
def valFields (e : FileEntry) : Option Bool × Option String × Option String :=
  (e.lastValidationSuccess, e.lastValidationError, e.lastValidation)

theorem applyDeploymentUpdate_valFields (success : Bool) (now : String)
    (fileHash errorMessage : Option String) (e : FileEntry) :
    valFields (applyDeploymentUpdate success now fileHash errorMessage e)
      = valFields e := by
  unfold applyDeploymentUpdate valFields
  by_cases h : strTruthy errorMessage = true
  · simp [h]
  · simp [h]

theorem updateAt_valFields (f : FileEntry → FileEntry)
    (hf : ∀ e, valFields (f e) = valFields e) :
    ∀ (l : List FileEntry) (i n : Nat),
      ((updateAt i f l)[n]?).map valFields = (l[n]?).map valFields := by
  intro l
  induction l with
  | nil => intro i n; simp [updateAt]
  | cons e rest ih =>
    intro i n
    cases i with
    | zero =>
      cases n with
      | zero => simp [updateAt, hf]
      | succ m => simp [updateAt]
    | succ j =>
      cases n with
      | zero => simp [updateAt]
      | succ m => simpa [updateAt] using ih j m

/-- C10: on the validation-failure path, `deploy_bicep_template`
records exactly one deployment-history update (outcome `False` with
the validation error message), and `update_deployment_history` never
changes the validation-outcome fields of any pre-existing entry. -/
theorem deploy_validation_failure_writes_only_deployment_fields
    (env : DeployEnv) (skipUnchanged : String)
    (templateNeedsRedeployment : Bool)
    (hraise : env.raised = none) (hempty : env.fileEmpty = false)
    (hchanged : env.templateChanged = true)
    (hvfail : env.validationOk = false) :
    deploy_bicep_template env skipUnchanged false "All"
        templateNeedsRedeployment
      = (.failure,
         [(false, some ("Template validation failed: " ++ env.validationMsg))]) ∧
    ∀ (name stem : String) (fileHash : Option String) (now : String)
      (success : Bool) (errorMessage : Option String)
      (entries : List FileEntry) (i : Nat), i < entries.length →
      ((update_deployment_history name stem fileHash now success errorMessage
          entries)[i]?).map valFields = (entries[i]?).map valFields := by
  constructor
  · obtain ⟨nm, fe, tc, ca, vok, vmsg, dok, dmsg, raised⟩ := env
    simp only at hraise hempty hchanged hvfail
    subst hraise hempty hchanged hvfail
    simp [deploy_bicep_template]
  · intro name stem fileHash now success errorMessage entries i hi
    unfold update_deployment_history
    cases findEntryIdx name stem entries with
    | some j =>
      exact updateAt_valFields _
        (applyDeploymentUpdate_valFields success now fileHash errorMessage)
        entries j i
    | none =>
      rw [List.getElem?_append_left hi]

theorem deploy_validation_failure_writes_only_deployment_fields_witness :
    deploy_bicep_template
        ⟨"t.bicep", false, true, "deploy", false, "bad", true, "", none⟩
        "prompt" false "All" true
      = (DeployResult.failure,
         [(false, some "Template validation failed: bad")]) ∧
    ((update_deployment_history "t.bicep" "t" (some "h") "now" false
        (some "Template validation failed: bad")
        [{ fileName := some "t.bicep",
           lastValidationSuccess := some true,
           lastValidationError := some "old",
           lastValidation := some "v1" }])[0]?).map valFields
      = (([{ fileName := some "t.bicep",
             lastValidationSuccess := some true,
             lastValidationError := some "old",
             lastValidation := some "v1" }] : List FileEntry)[0]?).map valFields := by
  have h := deploy_validation_failure_writes_only_deployment_fields
    ⟨"t.bicep", false, true, "deploy", false, "bad", true, "", none⟩
    "prompt" true rfl rfl rfl rfl
  exact ⟨h.1, h.2 "t.bicep" "t" (some "h") "now" false
    (some "Template validation failed: bad")
    [{ fileName := some "t.bicep",
       lastValidationSuccess := some true,
       lastValidationError := some "old",
       lastValidation := some "v1" }] 0 (by decide)⟩

/-- One item of a batch run: the template fields the loop consults,
the outcome its `deploy_bicep_template` call would produce, and the
operator's answers at the two per-item prompts. -/
structure BatchItem where
  enabled : Bool := true
  lastDeploymentError : Option String := none
  lastDeploymentSuccess : Option Bool := none
  prevErrorAnswerNo : Bool := false
  outcome : DeployResult := .success
  failureAnswerNo : Bool := false
  deriving Repr, DecidableEq

/-- The pre-deploy skip of `deploy_all_templates` (`deployment.py`
lines 334-343): when the record shows a previous error and no
successful last deployment, the operator is prompted, and answering
"N" skips the item with `continue`. -/
def prevErrorPromptSkips (it : BatchItem) : Bool :=
  strTruthy it.lastDeploymentError && !(boolTruthy it.lastDeploymentSuccess)
    && it.prevErrorAnswerNo

/-- The per-item loop of `deploy_all_templates` (`deployment.py`
lines 327-383), expressed recursively: a prompt-skipped item counts
nowhere, success and "skipped" increment the success counter,
failure increments the failure counter and, when the operator answers
"N" at the continue prompt, `break`s the loop.  Returns
`(successful_deployments, failed_deployments)`. -/
def deploy_all_templates_loop : List BatchItem → Nat × Nat
  | [] => (0, 0)
  | it :: rest =>
    if prevErrorPromptSkips it then deploy_all_templates_loop rest
    else
      match it.outcome with
      | .success =>
          ((deploy_all_templates_loop rest).1 + 1,
           (deploy_all_templates_loop rest).2)
      | .skipped =>
          ((deploy_all_templates_loop rest).1 + 1,
           (deploy_all_templates_loop rest).2)
      | .failure =>
          if it.failureAnswerNo then (0, 1)
          else ((deploy_all_templates_loop rest).1,
                (deploy_all_templates_loop rest).2 + 1)

/-- Counting part of `deploy_all_templates`: the loop runs over the
enabled templates (`deployment.py` line 253). -/
def deploy_all_templates (templates : List BatchItem) : Nat × Nat :=
  deploy_all_templates_loop (templates.filter (fun t => t.enabled))

/-- Spec-side description of which items the loop actually attempts
to deploy, in order: prompt-skipped items are not attempted, and
nothing after a failure whose continue prompt was declined is
attempted. -/
def attemptedOutcomes : List BatchItem → List DeployResult
  | [] => []
  | it :: rest =>
    if prevErrorPromptSkips it then attemptedOutcomes rest
    else
      match it.outcome with
      | .failure =>
          if it.failureAnswerNo then [.failure]
          else .failure :: attemptedOutcomes rest
      | o => o :: attemptedOutcomes rest

/-- C4: the batch loop counts each attempted item exactly once —
successes and "skipped" outcomes in the first component, failures in
the second, never-attempted items in neither; declining the
continue-after-failure prompt halts the loop so that no later item
influences the result; and the concrete batch of three enabled
templates where the second fails and the operator declines returns
`(1, 1)`. -/
theorem deploy_all_templates_counts :
    (∀ items : List BatchItem, deploy_all_templates_loop items =
      ((attemptedOutcomes items).countP
          (fun o => o == DeployResult.success || o == DeployResult.skipped),
       (attemptedOutcomes items).countP (fun o => o == DeployResult.failure))) ∧
    (∀ (a c : List BatchItem) (b : BatchItem),
      prevErrorPromptSkips b = false → b.outcome = .failure →
      b.failureAnswerNo = true →
      deploy_all_templates_loop (a ++ b :: c)
        = deploy_all_templates_loop (a ++ [b])) ∧
    deploy_all_templates
        [{ outcome := .success },
         { outcome := .failure, failureAnswerNo := true },
         { outcome := .success }] = (1, 1) := by
  refine ⟨?_, ?_, by rfl⟩
  · intro items
    induction items with
    | nil => rfl
    | cons it rest ih =>
      by_cases hskip : prevErrorPromptSkips it = true
      · simp [deploy_all_templates_loop, attemptedOutcomes, hskip, ih]
      · cases hout : it.outcome with
        | success =>
          simp [deploy_all_templates_loop, attemptedOutcomes, hskip, hout, ih,
            List.countP_cons]
        | skipped =>
          simp [deploy_all_templates_loop, attemptedOutcomes, hskip, hout, ih,
            List.countP_cons]
        | failure =>
          by_cases hno : it.failureAnswerNo = true
          · simp [deploy_all_templates_loop, attemptedOutcomes, hskip, hout, hno,
              List.countP_cons]
          · simp [deploy_all_templates_loop, attemptedOutcomes, hskip, hout, hno,
              ih, List.countP_cons]
  · intro a c b hskip hout hno
    induction a with
    | nil =>
      simp [deploy_all_templates_loop, hskip, hout, hno]
    | cons x a ih =>
      by_cases hx : prevErrorPromptSkips x = true
      · simpa [deploy_all_templates_loop, hx] using ih
      · cases hxo : x.outcome with
        | success => simp [deploy_all_templates_loop, hx, hxo, ih]
        | skipped => simp [deploy_all_templates_loop, hx, hxo, ih]
        | failure =>
          by_cases hxn : x.failureAnswerNo = true
          · simp [deploy_all_templates_loop, hx, hxo, hxn]
          · simp [deploy_all_templates_loop, hx, hxo, hxn, ih]

theorem deploy_all_templates_counts_witness :
    prevErrorPromptSkips
        ({ outcome := .failure, failureAnswerNo := true } : BatchItem) = false ∧
    deploy_all_templates_loop
        [{ outcome := .success },
         { outcome := .failure, failureAnswerNo := true },
         { outcome := .success }]
      = deploy_all_templates_loop
        [{ outcome := .success },
         { outcome := .failure, failureAnswerNo := true }] :=
  ⟨rfl, deploy_all_templates_counts.2.1
    [{ outcome := .success }] [{ outcome := .success }]
    { outcome := .failure, failureAnswerNo := true } rfl rfl rfl⟩

end BicepDeploy
